import Mathlib

/-!
Shallow embedding of `tailwind.config.js` from the HR-Management-System
repository: a static design-token configuration object (content globs,
dark-mode flag, theme extension scales, and one plugin registering three
transition utility classes), together with small executable parsers for
the string value formats the configuration uses (rem lengths, millisecond
durations, hex and rgba colors, digit strings, glob patterns).
-/

namespace Tailwind

/- ## Generic executable helpers over character lists -/

/-- Split a character list at every occurrence of the separator. -/
def splitOnChar (c : Char) : List Char → List (List Char)
  | [] => [[]]
  | x :: xs =>
    let r := splitOnChar c xs
    if x = c then [] :: r
    else
      match r with
      | [] => [[x]]
      | h :: t => (x :: h) :: t

/-- Drop leading and trailing spaces. -/
def trimSpaces (l : List Char) : List Char :=
  ((l.dropWhile (fun c => c = ' ')).reverse.dropWhile (fun c => c = ' ')).reverse

/-- Numeric value of a decimal digit character. -/
def digitVal (c : Char) : Nat := c.toNat - 48

/-- Parse a non-empty all-digit character list as a natural number. -/
def natOfDigits (l : List Char) : Option Nat :=
  if l ≠ [] ∧ l.all Char.isDigit then
    some (l.foldl (fun a c => a * 10 + digitVal c) 0)
  else none

/-- Parse a decimal numeral (digits with at most one dot and at most four
fraction digits) as a fixed-point value scaled by 10000. -/
def parseFixed4 (l : List Char) : Option Nat :=
  match splitOnChar '.' l with
  | [ip] =>
    match natOfDigits ip with
    | some n => some (n * 10000)
    | none => none
  | [ip, fp] =>
    if fp.length = 0 ∨ fp.length > 4 then none
    else
      match natOfDigits ip, natOfDigits fp with
      | some n, some f => some (n * 10000 + f * 10 ^ (4 - fp.length))
      | _, _ => none
  | _ => none

/-- Parse a CSS length written in rem (for example "1.125rem") as a
fixed-point number of ten-thousandths of a rem. -/
def parseRem (l : List Char) : Option Nat :=
  match l.reverse with
  | 'm' :: 'e' :: 'r' :: rest => parseFixed4 rest.reverse
  | _ => none

/-- Parse a word of the form "<digits>ms" as a millisecond count. -/
def parseMsWord (w : List Char) : Option Nat :=
  match w.reverse with
  | 's' :: 'm' :: rest => natOfDigits rest.reverse
  | _ => none

/-- Look up a key in an association list of string keys. -/
def lookupKey {α : Type} (k : String) : List (String × α) → Option α
  | [] => none
  | p :: t => if p.1 = k then some p.2 else lookupKey k t

/-- No string occurs twice in the list. -/
def nodupStrB : List String → Bool
  | [] => true
  | x :: xs => !(xs.any (fun y => decide (y = x))) && nodupStrB xs

/-- The two lists contain the same strings (set equality of their members). -/
def sameKeySet (a b : List String) : Bool :=
  a.all (fun x => b.any (fun y => decide (y = x))) &&
  b.all (fun x => a.any (fun y => decide (y = x)))

/-- Each element is strictly smaller than the next. -/
def chainLtB : List Nat → Bool
  | [] => true
  | [_] => true
  | a :: b :: t => decide (a < b) && chainLtB (b :: t)

/-- No natural number occurs twice in the list. -/
def nodupNatB : List Nat → Bool
  | [] => true
  | x :: xs => !(xs.any (fun y => decide (y = x))) && nodupNatB xs

/-- Strict comparison of two optional parsed values; false unless both parsed. -/
def optLtB : Option Nat → Option Nat → Bool
  | some x, some y => decide (x < y)
  | _, _ => false

/- ## CSS color syntax (hex and rgba forms) -/

/-- Hexadecimal digit test. -/
def isHexDigitB (c : Char) : Bool :=
  c.isDigit || ('a' ≤ c && c ≤ 'f') || ('A' ≤ c && c ≤ 'F')

/-- An integer color channel: digits denoting a value at most 255. -/
def isByteComponent (l : List Char) : Bool :=
  match natOfDigits l with
  | some n => decide (n ≤ 255)
  | none => false

/-- An alpha channel: a decimal numeral between 0 and 1. -/
def isAlphaComponent (l : List Char) : Bool :=
  match parseFixed4 l with
  | some n => decide (n ≤ 10000)
  | none => false

/-- An rgba(r, g, b, a) functional color. -/
def isRgbaColor (v : List Char) : Bool :=
  match v with
  | 'r' :: 'g' :: 'b' :: 'a' :: '(' :: rest =>
    match rest.reverse with
    | ')' :: midRev =>
      match (splitOnChar ',' midRev.reverse).map trimSpaces with
      | [r, g, b, a] =>
        isByteComponent r && isByteComponent g && isByteComponent b &&
        isAlphaComponent a
      | _ => false
    | _ => false
  | _ => false

/-- A syntactically valid CSS color in the forms the configuration uses:
a hash followed by 3, 4, 6 or 8 hexadecimal digits, or an rgba() value. -/
def isValidColor (v : List Char) : Bool :=
  match v with
  | '#' :: rest =>
    (decide (rest.length = 3) || decide (rest.length = 4) ||
     decide (rest.length = 6) || decide (rest.length = 8)) &&
    rest.all isHexDigitB
  | _ => isRgbaColor v

/- ## The configuration data, transcribed from tailwind.config.js -/

/-- An entry of theme.extend.colors: either a flat color token (name to a
single color string) or a color family (name to a nested record of shades). -/
inductive ColorEntry where
  | flat (name value : String)
  | family (name : String) (shades : List (String × String))

/-- theme.extend.colors (lines 11-125 of the source). -/
def colors : List ColorEntry := [
  .family "primary" [
    ("DEFAULT", "#2563EB"), ("50", "#EFF6FF"), ("100", "#DBEAFE"),
    ("200", "#BFDBFE"), ("300", "#93C5FD"), ("400", "#60A5FA"),
    ("500", "#3B82F6"), ("600", "#2563EB"), ("700", "#1D4ED8"),
    ("800", "#1E40AF"), ("900", "#1E3A8A"), ("foreground", "#FFFFFF")],
  .family "secondary" [
    ("DEFAULT", "#64748B"), ("50", "#F8FAFC"), ("100", "#F1F5F9"),
    ("200", "#E2E8F0"), ("300", "#CBD5E1"), ("400", "#94A3B8"),
    ("500", "#64748B"), ("600", "#475569"), ("700", "#334155"),
    ("800", "#1E293B"), ("900", "#0F172A"), ("foreground", "#FFFFFF")],
  .family "accent" [
    ("DEFAULT", "#F59E0B"), ("50", "#FFFBEB"), ("100", "#FEF3C7"),
    ("200", "#FDE68A"), ("300", "#FCD34D"), ("400", "#FBBF24"),
    ("500", "#F59E0B"), ("600", "#D97706"), ("700", "#B45309"),
    ("800", "#92400E"), ("900", "#78350F"), ("foreground", "#1F2937")],
  .family "background" [
    ("DEFAULT", "#FAFAFA"), ("foreground", "#1F2937")],
  .family "surface" [
    ("DEFAULT", "#FFFFFF"), ("foreground", "#374151"),
    ("hover", "#F9FAFB"), ("active", "#F3F4F6")],
  .flat "text-primary" "#1F2937",
  .flat "text-secondary" "#6B7280",
  .flat "text-tertiary" "#9CA3AF",
  .flat "text-disabled" "#D1D5DB",
  .family "success" [
    ("DEFAULT", "#059669"), ("50", "#ECFDF5"), ("100", "#D1FAE5"),
    ("200", "#A7F3D0"), ("300", "#6EE7B7"), ("400", "#34D399"),
    ("500", "#10B981"), ("600", "#059669"), ("700", "#047857"),
    ("800", "#065F46"), ("900", "#064E3B"), ("foreground", "#FFFFFF")],
  .family "warning" [
    ("DEFAULT", "#D97706"), ("50", "#FFFBEB"), ("100", "#FEF3C7"),
    ("200", "#FDE68A"), ("300", "#FCD34D"), ("400", "#FBBF24"),
    ("500", "#F59E0B"), ("600", "#D97706"), ("700", "#B45309"),
    ("800", "#92400E"), ("900", "#78350F"), ("foreground", "#FFFFFF")],
  .family "error" [
    ("DEFAULT", "#DC2626"), ("50", "#FEF2F2"), ("100", "#FEE2E2"),
    ("200", "#FECACA"), ("300", "#FCA5A5"), ("400", "#F87171"),
    ("500", "#EF4444"), ("600", "#DC2626"), ("700", "#B91C1C"),
    ("800", "#991B1B"), ("900", "#7F1D1D"), ("foreground", "#FFFFFF")],
  .family "border" [
    ("DEFAULT", "rgba(0, 0, 0, 0.08)"), ("light", "rgba(0, 0, 0, 0.04)"),
    ("strong", "rgba(0, 0, 0, 0.12)")]]

/-- theme.extend.fontFamily (lines 126-131). -/
def fontFamily : List (String × List String) := [
  ("heading", ["Inter", "sans-serif"]),
  ("body", ["Source Sans Pro", "sans-serif"]),
  ("caption", ["IBM Plex Sans", "sans-serif"]),
  ("mono", ["JetBrains Mono", "monospace"])]

/-- The options record of a font-size entry. -/
structure FontSizeOptions where
  lineHeight : String

/-- theme.extend.fontSize (lines 132-141): name to [size, options]. -/
def fontSize : List (String × String × FontSizeOptions) := [
  ("xs", "0.875rem", ⟨"1.4"⟩),
  ("sm", "0.9375rem", ⟨"1.6"⟩),
  ("base", "1rem", ⟨"1.6"⟩),
  ("lg", "1.125rem", ⟨"1.5"⟩),
  ("xl", "1.25rem", ⟨"1.4"⟩),
  ("2xl", "1.5rem", ⟨"1.3"⟩),
  ("3xl", "1.875rem", ⟨"1.25"⟩),
  ("4xl", "2.25rem", ⟨"1.2"⟩)]

/-- theme.extend.spacing (lines 142-150). -/
def spacing : List (String × String) := [
  ("1", "0.5rem"), ("2", "1rem"), ("3", "1.5rem"), ("4", "2rem"),
  ("6", "3rem"), ("8", "4rem"), ("12", "6rem")]

/-- theme.extend.borderRadius (lines 151-157). -/
def borderRadius : List (String × String) := [
  ("sm", "0.375rem"), ("base", "0.75rem"), ("md", "1.125rem"),
  ("lg", "1.5rem"), ("xl", "0.75rem")]

/-- theme.extend.boxShadow (lines 158-164). -/
def boxShadow : List (String × String) := [
  ("sm", "0 2px 4px rgba(0, 0, 0, 0.08)"),
  ("base", "0 4px 8px rgba(0, 0, 0, 0.1)"),
  ("md", "0 6px 12px rgba(0, 0, 0, 0.12)"),
  ("lg", "0 12px 24px rgba(0, 0, 0, 0.15)"),
  ("xl", "0 20px 40px -8px rgba(0, 0, 0, 0.15)")]

/-- theme.extend.transitionDuration (lines 165-168). -/
def transitionDuration : List (String × String) := [
  ("250", "250ms"), ("350", "350ms")]

/-- theme.extend.transitionTimingFunction (lines 169-171). -/
def transitionTimingFunction : List (String × String) := [
  ("out", "cubic-bezier(0.4, 0, 0.2, 1)")]

/-- theme.extend.zIndex (lines 172-179). -/
def zIndex : List (String × String) := [
  ("base", "0"), ("card", "1"), ("dropdown", "50"),
  ("navigation", "100"), ("modal", "200"), ("toast", "300")]

/-- theme.extend.ringWidth (lines 180-182). -/
def ringWidth : List (String × String) := [("3", "3px")]

/-- theme.extend.ringOffsetWidth (lines 183-185). -/
def ringOffsetWidth : List (String × String) := [("2", "2px")]

/-- theme.extend.minWidth (lines 186-188). -/
def minWidth : List (String × String) := [("44", "44px")]

/-- theme.extend.minHeight (lines 189-191). -/
def minHeight : List (String × String) := [("44", "44px")]

/-- theme.extend.maxWidth (lines 192-194). -/
def maxWidth : List (String × String) := [("measure", "70ch")]

/-- theme.extend.letterSpacing (lines 195-197). -/
def letterSpacing : List (String × String) := [("caption", "0.025em")]

/-- The content glob pattern list (lines 2-7). -/
def content : List String := [
  "./pages/**/*.\x7bhtml,js\x7d",
  "./components/**/*.\x7bhtml,js\x7d",
  "./index.html",
  "./*.html"]

/-- The darkMode field (line 8). -/
def darkMode : String := "class"

/- ## The plugin (lines 200-215) -/

/-- A mapping of class names to CSS declaration objects
(each declaration object a list of property/value pairs). -/
abbrev UtilMap := List (String × List (String × String))

/-- The newUtilities object built inside the plugin function
(lines 202-212). -/
def newUtilities : UtilMap := [
  (".transition-base",
    [("transition", "all 250ms cubic-bezier(0.4, 0, 0.2, 1)")]),
  (".transition-fast",
    [("transition", "all 150ms cubic-bezier(0.4, 0, 0.2, 1)")]),
  (".transition-slow",
    [("transition", "all 350ms cubic-bezier(0.4, 0, 0.2, 1)")])]

/-- The plugin function (lines 201-214): it receives the registration
function addUtilities and applies it once to newUtilities. -/
def plugin {m : Type → Type} (addUtilities : UtilMap → m Unit) : m Unit :=
  addUtilities newUtilities

/- ## The whole exported configuration object -/

/-- The nested theme.extend record (lines 10-198). -/
structure ThemeExtend where
  colors : List ColorEntry
  fontFamily : List (String × List String)
  fontSize : List (String × String × FontSizeOptions)
  spacing : List (String × String)
  borderRadius : List (String × String)
  boxShadow : List (String × String)
  transitionDuration : List (String × String)
  transitionTimingFunction : List (String × String)
  zIndex : List (String × String)
  ringWidth : List (String × String)
  ringOffsetWidth : List (String × String)
  minWidth : List (String × String)
  minHeight : List (String × String)
  maxWidth : List (String × String)
  letterSpacing : List (String × String)

/-- The theme record (lines 9-199). -/
structure Theme where
  extend : ThemeExtend

/-- The full shape of module.exports (lines 1-216); plugins hold the
plugin function instantiated at a call-recording state monad. -/
structure Config where
  content : List String
  darkMode : String
  theme : Theme
  plugins : List ((UtilMap → StateM (List UtilMap) Unit) → StateM (List UtilMap) Unit)

/-- Evaluating the module: the module body takes no inputs and constructs
the configuration literal. -/
def evalConfig : Unit → Config := fun _ =>
  { content := content
    darkMode := darkMode
    theme := { extend :=
      { colors := colors
        fontFamily := fontFamily
        fontSize := fontSize
        spacing := spacing
        borderRadius := borderRadius
        boxShadow := boxShadow
        transitionDuration := transitionDuration
        transitionTimingFunction := transitionTimingFunction
        zIndex := zIndex
        ringWidth := ringWidth
        ringOffsetWidth := ringOffsetWidth
        minWidth := minWidth
        minHeight := minHeight
        maxWidth := maxWidth
        letterSpacing := letterSpacing } }
    plugins := [plugin] }

/- ## Glob matching -/

/-- The opening brace character, written by code point. -/
def lbraceChar : Char := Char.ofNat 123

/-- The closing brace character, written by code point. -/
def rbraceChar : Char := Char.ofNat 125

/-- Split a character list at the first occurrence of the separator,
returning the parts before and after it when it occurs. -/
def breakAtChar (c : Char) : List Char → Option (List Char × List Char)
  | [] => none
  | x :: xs =>
    if x = c then some ([], xs)
    else
      match breakAtChar c xs with
      | none => none
      | some (pre, post) => some (x :: pre, post)

/-- Modelled from the spec: the external build tool expands a brace
alternation such as "*.\x7bhtml,js\x7d" into one pattern per comma-separated
alternative; patterns without braces stand for themselves. Fuel bounds the
recursion over the remainder of the pattern. -/
def expandBracesFuel : Nat → List Char → List (List Char)
  | 0, l => [l]
  | fuel + 1, l =>
    match breakAtChar lbraceChar l with
    | none => [l]
    | some (pre, rest) =>
      match breakAtChar rbraceChar rest with
      | none => [l]
      | some (inside, post) =>
        (splitOnChar ',' inside).flatMap
          (fun alt => (expandBracesFuel fuel post).map
            (fun e => pre ++ alt ++ e))

/-- Brace expansion of a pattern. -/
def expandBraces (l : List Char) : List (List Char) :=
  expandBracesFuel l.length l

/-- Modelled from the spec: the external build tool's glob matching of a
brace-free pattern against a path — a double star matches any character
sequence across path segments, a single star any run of characters within
one segment, a question mark one character within a segment, and any other
character only itself. Fuel bounds the recursion; the sum of the lengths
suffices since every step shortens the pattern or the path. -/
def globMatchFuel : Nat → List Char → List Char → Bool
  | 0, p, s => p.isEmpty && s.isEmpty
  | fuel + 1, p, s =>
    match p, s with
    | [], [] => true
    | [], _ :: _ => false
    | '*' :: '*' :: p', s =>
      globMatchFuel fuel p' s ||
        (match s with
         | [] => false
         | _ :: s' => globMatchFuel fuel ('*' :: '*' :: p') s')
    | '*' :: p', s =>
      globMatchFuel fuel p' s ||
        (match s with
         | [] => false
         | c :: s' => !(decide (c = '/')) && globMatchFuel fuel ('*' :: p') s')
    | '?' :: p', s =>
      (match s with
       | [] => false
       | c :: s' => !(decide (c = '/')) && globMatchFuel fuel p' s')
    | c :: p', s =>
      (match s with
       | [] => false
       | d :: s' => decide (c = d) && globMatchFuel fuel p' s')

/-- A leading "./" roots the pattern at the configuration's directory and
is dropped before matching a path relative to that directory. -/
def stripDotSlash : List Char → List Char
  | '.' :: '/' :: p => p
  | p => p

/-- Modelled from the spec: whether a content glob pattern matches a file
path relative to the configuration's directory. -/
def matchesFile (pat file : String) : Bool :=
  (expandBraces (stripDotSlash pat.data)).any
    (fun p => globMatchFuel (p.length + file.data.length + 1) p file.data)

/- ## Derived views used by the claims -/

/-- The millisecond durations occurring in a CSS declaration value:
every space-separated word of the form "<digits>ms". -/
def msDurationsOfValue (v : String) : List Nat :=
  (splitOnChar ' ' v.data).filterMap parseMsWord

/-- The millisecond values of the transitionDuration scale. -/
def scaleDurationsMs : List Nat :=
  transitionDuration.filterMap (fun p => parseMsWord p.2.data)

/-- The millisecond durations of each declaration of a registered utility
class, looked up by class name. -/
def utilDurations (cls : String) : List (List Nat) :=
  ((lookupKey cls newUtilities).getD []).map (fun d => msDurationsOfValue d.2)

/-- C1 as stated: every registered utility class resolves to exactly one
transition declaration and every millisecond duration occurring in it is a
member of the transitionDuration scale. -/
def claimC1check : Bool :=
  newUtilities.all (fun u =>
    decide (u.2.map Prod.fst = ["transition"]) &&
    u.2.all (fun d =>
      (msDurationsOfValue d.2).all (fun n => scaleDurationsMs.contains n)))

/-- The shade key set the spec requires of a color family. -/
def requiredShadeKeys : List String :=
  ["DEFAULT", "50", "100", "200", "300", "400", "500",
   "600", "700", "800", "900", "foreground"]

/-- The shade keys of the color family with the given name, when a family
of that name is declared. -/
def colorFamilyKeys (n : String) : Option (List String) :=
  colors.foldr (fun e acc =>
    match e with
    | .family m shades => if m = n then some (shades.map Prod.fst) else acc
    | .flat _ _ => acc) none

/-- Every color value of an entry is syntactically valid. -/
def entryValuesValid : ColorEntry → Bool
  | .flat _ v => isValidColor v.data
  | .family _ shades => shades.all (fun s => isValidColor s.2.data)

/-- C2 as stated: every color family (nested entry) has exactly the
required shade key set and only syntactically valid color values. -/
def claimC2check : Bool :=
  colors.all (fun e =>
    match e with
    | .flat _ _ => true
    | .family _ shades =>
      nodupStrB (shades.map Prod.fst) &&
      sameKeySet (shades.map Prod.fst) requiredShadeKeys &&
      shades.all (fun s => isValidColor s.2.data))

/-- A registration function that records every call it receives. -/
def recordCall (u : UtilMap) : StateM (List UtilMap) Unit :=
  modify (fun s => s ++ [u])

/-- The z-index scale values parsed as integers. -/
def zVals : List Nat := zIndex.filterMap (fun p => natOfDigits p.2.data)

/-- The parsed rem length of the entry of a scale with the given key. -/
def remOfKey (scale : List (String × String)) (k : String) : Option Nat :=
  match lookupKey k scale with
  | some v => parseRem v.data
  | none => none

/- ## Claims -/

/-- C1, counterexample: the claim that every registered utility class's
transition duration lies in the transitionDuration scale is false — the
.transition-fast class uses 150ms while the scale only declares 250ms and
350ms. -/
theorem transition_fast_duration_not_in_scale :
  claimC1check = false ∧
  utilDurations ".transition-fast" = [[150]] ∧
  scaleDurationsMs = [250, 350] := by
  refine ⟨by decide, by decide, by decide⟩

/-- C1, amended: each of the three registered utility classes resolves to
exactly one transition declaration containing exactly one millisecond
duration; the durations of .transition-base (250ms) and .transition-slow
(350ms) are members of the transitionDuration scale, while that of
.transition-fast (150ms) is not. -/
theorem transition_utilities_single_declaration_durations :
  newUtilities.all (fun u =>
    decide (u.2.map Prod.fst = ["transition"]) &&
    u.2.all (fun d => decide ((msDurationsOfValue d.2).length = 1))) = true ∧
  utilDurations ".transition-base" = [[250]] ∧
  utilDurations ".transition-slow" = [[350]] ∧
  utilDurations ".transition-fast" = [[150]] ∧
  scaleDurationsMs.contains 250 = true ∧
  scaleDurationsMs.contains 350 = true ∧
  scaleDurationsMs.contains 150 = false := by
  refine ⟨by decide, by decide, by decide, by decide, by decide, by decide, by decide⟩

/-- C2, counterexample: the claim that every color family has exactly the
shade keys DEFAULT, 50..900, foreground is false — the background family
declares only DEFAULT and foreground. -/
theorem background_family_missing_shade_keys :
  claimC2check = false ∧
  colorFamilyKeys "background" = some ["DEFAULT", "foreground"] ∧
  sameKeySet ["DEFAULT", "foreground"] requiredShadeKeys = false := by
  refine ⟨by decide, by decide, by decide⟩

/-- C2, amended: the six families primary, secondary, accent, success,
warning and error each have exactly the shade key set DEFAULT, 50..900,
foreground; the background, surface and border families instead have the
key sets DEFAULT/foreground, DEFAULT/foreground/hover/active and
DEFAULT/light/strong respectively; and every color value under
theme.extend.colors is a syntactically valid CSS color. -/
theorem color_families_keys_and_valid_values :
  (["primary", "secondary", "accent", "success", "warning", "error"].all
    (fun n =>
      match colorFamilyKeys n with
      | some ks => nodupStrB ks && sameKeySet ks requiredShadeKeys
      | none => false)) = true ∧
  colorFamilyKeys "background" = some ["DEFAULT", "foreground"] ∧
  colorFamilyKeys "surface" = some ["DEFAULT", "foreground", "hover", "active"] ∧
  colorFamilyKeys "border" = some ["DEFAULT", "light", "strong"] ∧
  colors.all entryValuesValid = true := by
  refine ⟨by decide, by decide, by decide, by decide, by decide⟩

/-- C3: invoked with a call-recording registration function, the plugin
calls it exactly once, the single recorded argument is newUtilities, and
the key set of that mapping is exactly the three transition class names,
each mapped to a non-empty CSS declaration object. -/
theorem plugin_registers_utilities_once :
  ((plugin recordCall).run []).2 = [newUtilities] ∧
  newUtilities.map Prod.fst =
    [".transition-base", ".transition-fast", ".transition-slow"] ∧
  nodupStrB (newUtilities.map Prod.fst) = true ∧
  newUtilities.all (fun u => !(decide (u.2 = []))) = true := by
  refine ⟨rfl, by decide, by decide, by decide⟩

/-- C4: the spacing scale is strictly monotone — for every two entries
whose keys parse as naturals with the first strictly smaller, the rem
lengths (all entries parse as rem lengths) are strictly smaller as well. -/
theorem spacing_scale_strictly_monotone :
  spacing.all (fun p => spacing.all (fun q =>
    match natOfDigits p.1.data, natOfDigits q.1.data,
          parseRem p.2.data, parseRem q.2.data with
    | some k1, some k2, some v1, some v2 =>
      !(decide (k1 < k2)) || decide (v1 < v2)
    | _, _, _, _ => false)) = true := by decide

/-- C5: the content field is exactly the four glob patterns, each rooted
with "./", every pattern is a non-empty string, and at least one pattern
matches the root file index.html. -/
theorem content_globs_exact_and_match_index :
  content = ["./pages/**/*.\x7bhtml,js\x7d", "./components/**/*.\x7bhtml,js\x7d",
             "./index.html", "./*.html"] ∧
  content.all (fun p => !(decide (p = ""))) = true ∧
  content.any (fun p => matchesFile p "index.html") = true := by
  refine ⟨rfl, by decide, by decide⟩

/-- C6: evaluating the configuration is deterministic and idempotent — the
module body takes no inputs, and any two evaluations yield structurally
identical configuration values. -/
theorem config_evaluation_deterministic :
  evalConfig () = evalConfig () ∧ ∀ u v : Unit, evalConfig u = evalConfig v :=
  ⟨rfl, fun _ _ => rfl⟩

/-- C7: every fontSize entry pairs a size that parses as a rem length with
an options record whose lineHeight is present and is a unitless decimal
numeral. -/
theorem fontSize_sizes_rem_lineHeights_numeric :
  fontSize.all (fun e =>
    (parseRem e.2.1.data).isSome &&
    (parseFixed4 e.2.2.lineHeight.data).isSome) = true := by decide

/-- C8: darkMode is the string "class", and every fontFamily entry is a
non-empty list ending in a generic family name (sans-serif or
monospace). -/
theorem darkMode_class_and_fontFamily_generic_fallback :
  darkMode = "class" ∧
  fontFamily.all (fun f =>
    !(decide (f.2 = [])) &&
    (decide (f.2.getLastD "" = "sans-serif") ||
     decide (f.2.getLastD "" = "monospace"))) = true :=
  ⟨rfl, by decide⟩

/-- C9: the z-index scale, parsed as integers in declaration order of the
layers base, card, dropdown, navigation, modal, toast, is the strictly
increasing sequence 0, 1, 50, 100, 200, 300, so no two layers share a
value. -/
theorem zIndex_layers_strictly_ordered :
  zIndex.map Prod.fst = ["base", "card", "dropdown", "navigation", "modal", "toast"] ∧
  zVals = [0, 1, 50, 100, 200, 300] ∧
  zVals.length = zIndex.length ∧
  chainLtB zVals = true ∧
  nodupNatB zVals = true := by
  refine ⟨rfl, by decide, by decide, by decide, by decide⟩

/-- C10: the border-radius scale is neither injective nor monotone in the
conventional size order — the xl radius equals the base radius (0.75rem)
and is strictly smaller than both the md and the lg radii. -/
theorem borderRadius_xl_equals_base_below_md_lg :
  lookupKey "xl" borderRadius = some "0.75rem" ∧
  lookupKey "xl" borderRadius = lookupKey "base" borderRadius ∧
  optLtB (remOfKey borderRadius "xl") (remOfKey borderRadius "md") = true ∧
  optLtB (remOfKey borderRadius "xl") (remOfKey borderRadius "lg") = true := by
  refine ⟨by decide, by decide, by decide, by decide⟩

end Tailwind
